import Mathlib

/-!
Verification of the cascading hierarchical filter controller in
`static/js/create_paper.js` (Question-Bank repository), together with the
lexical-scope layer of the same script and the markdown-insertion helper.

The embedding is shallow: every JavaScript function that the claims touch is
translated into a Lean function over explicit state.  Asynchronous code is
modelled twice: a sequential model (each refresh runs to completion, matching
the single-refresh claims) and an interleaved small-step model used for the
overlapping-refresh claim.  Machine-level details that the claims do not
mention (DOM nodes, CSS classes, bootstrap widgets) are abstracted into a
`ContainerView` that records exactly what a container publishes.
-/

namespace QuestionBank

/- ## JavaScript string ordering

`Array.prototype.sort()` with no comparator compares elements as strings,
code-unit by code-unit.  We model that comparison on `String.data` via the
numeric value of each character. -/

/-- Lexicographic less-or-equal on character lists, comparing characters by
their numeric code, as JavaScript default `sort` does. -/
def lexLe : List Char → List Char → Bool
  | [], _ => true
  | _ :: _, [] => false
  | a :: as, b :: bs =>
    if a.toNat < b.toNat then true
    else if b.toNat < a.toNat then false
    else lexLe as bs

/-- String comparison used by `Array.prototype.sort()` (default comparator). -/
def strLe (a b : String) : Bool := lexLe a.data b.data

/-- The sort order as a proposition. -/
def strLeRel : String → String → Prop := fun a b => strLe a b = true

instance : DecidableRel strLeRel :=
  fun a b => inferInstanceAs (Decidable (strLe a b = true))

/-- `Array.from(set).sort()`: sort a list of strings with the default
JavaScript comparator (a stable sort; we use insertion sort). -/
def jsSort (l : List String) : List String := List.insertionSort strLeRel l

/- ## JavaScript `Set` (insertion-ordered, deduplicating) -/

/-- `set.add(x)` on a `Set` represented as its insertion-ordered element
list: appends `x` unless already present. -/
def jsSetAdd (acc : List String) (x : String) : List String :=
  if x ∈ acc then acc else acc ++ [x]

/-- Rebuilding a `Set` from scratch by `add`ing each element of `l` in order
(what `handleSubjectChange` does after `selectedSubjects.clear()`). -/
def dedupInsert (l : List String) : List String := l.foldl jsSetAdd []

/- ## Fetch outcomes and the backend capability -/

/-- Outcome of one `fetch` + `response.json()` round trip.
`reply status items message` models a JSON body with a `status` field, the
child-identifier array and a `message` field; `transportError` models the
rejection caught by the surrounding `try`/`catch`. -/
inductive FetchOutcome where
  | reply (status : String) (items : List String) (message : String)
  | transportError (message : String)
deriving DecidableEq

/-- The backend query capability: `/api/paper/topics?subject=` and
`/api/paper/subtopics?subject=&topic=`. -/
structure Backend where
  topics : String → FetchOutcome
  subtopics : String → String → FetchOutcome

/- ## Container views -/

/-- What a checkbox container (`topics-container` / `subtopics-container`)
currently shows: rendered checkbox options, a plain informational message, or
the loading spinner installed at the start of a refresh. -/
inductive ContainerView where
  | options (items : List String)
  | message (text : String)
  | loading (text : String)
deriving DecidableEq

/-- The identifiers a container offers for selection: only rendered
checkboxes offer anything. -/
def ContainerView.availableOptions : ContainerView → List String
  | .options items => items
  | .message _ => []
  | .loading _ => []

/-- `renderTopics(topics)` (source lines 130-165): empty list renders the
no-options message, otherwise one checkbox per topic, in list order. -/
def renderTopics (topics : List String) : ContainerView :=
  if topics.length = 0 then .message "No topics available for selected subjects"
  else .options topics

/-- `renderSubtopics(subtopics)` (source lines 217-247). -/
def renderSubtopics (subtopics : List String) : ContainerView :=
  if subtopics.length = 0 then .message "No subtopics available for selected topics"
  else .options subtopics

/- ## Page state and the sequential controller -/

/-- The filter-relevant state of the create-paper page: the three selection
`Set`s, the two dependent containers, the log of children-query requests
issued at each level, and the log of `showError` calls. -/
structure PageState where
  selectedSubjects : List String
  selectedTopics : List String
  selectedSubtopics : List String
  topicsContainer : ContainerView
  subtopicsContainer : ContainerView
  topicRequests : List String
  subtopicRequests : List (String × String)
  errorLog : List String
deriving DecidableEq

/-- `clearTopics()` (source lines 252-254). -/
def clearTopics (st : PageState) : PageState :=
  { st with topicsContainer := .message "Select subjects first to see available topics" }

/-- `clearSubtopics()` (source lines 259-261). -/
def clearSubtopics (st : PageState) : PageState :=
  { st with subtopicsContainer := .message "Select topics first to see available subtopics" }

/-- The `for (const parent of selected) await fetch(...)` loop shared by
`loadTopics` (lines 111-118) and `loadSubtopics` (lines 196-205): issue one
query per parent in order, accumulate children of `status === 'success'`
replies into the `Set` accumulator, silently skip other replies, and abort
with the thrown message on a transport error.  Returns the request log and
either the accumulated children or the error. -/
def fetchChildren {α : Type} (query : α → FetchOutcome) :
    List α → List α → List String → List α × Except String (List String)
  | [], log, acc => (log, .ok acc)
  | p :: rest, log, acc =>
    match query p with
    | .transportError m => (log ++ [p], .error m)
    | .reply status items _ =>
      fetchChildren query rest (log ++ [p])
        (if status = "success" then items.foldl jsSetAdd acc else acc)

/-- Reference accumulator: the children of all parents whose reply has
`status = "success"`, accumulated in order into a `Set`. -/
def collectSuccess {α : Type} (stf : α → String) (itf : α → List String) :
    List α → List String → List String
  | [], acc => acc
  | p :: rest, acc =>
    collectSuccess stf itf rest
      (if stf p = "success" then (itf p).foldl jsSetAdd acc else acc)

/-- `async function loadTopics()` (source lines 103-125): install the
loading spinner, query once per selected subject, and on normal completion
render the sorted accumulated set; a transport error instead appends to the
error log and leaves the container in the spinner state. -/
def loadTopics (b : Backend) (st : PageState) : PageState :=
  let withSpinner := { st with topicsContainer := ContainerView.loading "Loading topics..." }
  match fetchChildren b.topics st.selectedSubjects [] [] with
  | (log, .ok allTopics) =>
    { withSpinner with
        topicsContainer := renderTopics (jsSort allTopics)
        topicRequests := st.topicRequests ++ log }
  | (log, .error m) =>
    { withSpinner with
        topicRequests := st.topicRequests ++ log
        errorLog := st.errorLog ++ ["Error loading topics: " ++ m] }

/-- The nested `for` loops of `loadSubtopics` visit every
(selected subject, selected topic) pair, subjects outermost. -/
def subjectTopicPairs (subjects topics : List String) : List (String × String) :=
  match subjects with
  | [] => []
  | s :: rest => topics.map (fun t => (s, t)) ++ subjectTopicPairs rest topics

/-- `async function loadSubtopics()` (source lines 188-212): one query per
(subject, topic) pair. -/
def loadSubtopics (b : Backend) (st : PageState) : PageState :=
  let withSpinner := { st with subtopicsContainer := ContainerView.loading "Loading subtopics..." }
  match fetchChildren (fun p : String × String => b.subtopics p.1 p.2)
      (subjectTopicPairs st.selectedSubjects st.selectedTopics) [] [] with
  | (log, .ok allSubtopics) =>
    { withSpinner with
        subtopicsContainer := renderSubtopics (jsSort allSubtopics)
        subtopicRequests := st.subtopicRequests ++ log }
  | (log, .error m) =>
    { withSpinner with
        subtopicRequests := st.subtopicRequests ++ log
        errorLog := st.errorLog ++ ["Error loading subtopics: " ++ m] }

/-- `handleSubjectChange()` (source lines 84-98): rebuild `selectedSubjects`
from the currently checked boxes (`checked`, in document order), then either
refresh topics or clear both dependent containers.  Note it touches neither
`selectedTopics` nor `selectedSubtopics`. -/
def handleSubjectChange (b : Backend) (checked : List String) (st : PageState) : PageState :=
  let st1 := { st with selectedSubjects := dedupInsert checked }
  if st1.selectedSubjects.length > 0 then loadTopics b st1
  else clearSubtopics (clearTopics st1)

/-- `handleTopicChange()` (source lines 170-183). -/
def handleTopicChange (b : Backend) (checked : List String) (st : PageState) : PageState :=
  let st1 := { st with selectedTopics := dedupInsert checked }
  if st1.selectedTopics.length > 0 then loadSubtopics b st1
  else clearSubtopics st1

/-- The topics container produced by a completed `loadTopics` run depends
only on the backend and the selected subjects. -/
def topicsResult (tq : String → FetchOutcome) (subjects : List String) : ContainerView :=
  match fetchChildren tq subjects [] [] with
  | (_, .ok allTopics) => renderTopics (jsSort allTopics)
  | (_, .error _) => .loading "Loading topics..."

/-- The subtopics container produced by a completed `loadSubtopics` run
depends only on the backend and the (subject, topic) pair list. -/
def subtopicsResult (sq : String → String → FetchOutcome)
    (pairs : List (String × String)) : ContainerView :=
  match fetchChildren (fun p : String × String => sq p.1 p.2) pairs [] [] with
  | (_, .ok allSubtopics) => renderSubtopics (jsSort allSubtopics)
  | (_, .error _) => .loading "Loading subtopics..."

/-- Page state at interface load: empty selections, placeholder containers,
no requests issued, no errors shown. -/
def initialPageState : PageState where
  selectedSubjects := []
  selectedTopics := []
  selectedSubtopics := []
  topicsContainer := .message "Select subjects first to see available topics"
  subtopicsContainer := .message "Select topics first to see available subtopics"
  topicRequests := []
  subtopicRequests := []
  errorLog := []

/- ## Interleaved model of overlapping topic refreshes

`loadTopics` is `async`: it suspends at each `await fetch`.  A second
subject-change can therefore run while a first refresh is suspended.  The
model below makes each suspended `loadTopics` invocation an explicit task and
lets responses arrive in any order.  The shared `selectedSubjects` `Set` is
modelled by its ECMA-262 entry list, where `clear()` replaces every entry
with an EMPTY tombstone (`none`) so that live iterators keep working, and
iterators hold an index into that list. -/

/-- `Set.prototype.clear()`: every entry becomes an EMPTY tombstone. -/
def entriesClear (l : List (Option String)) : List (Option String) :=
  l.map (fun _ => none)

/-- `Set.prototype.add(x)`: append unless a live entry already holds `x`. -/
def entriesAdd (l : List (Option String)) (x : String) : List (Option String) :=
  if some x ∈ l then l else l ++ [some x]

/-- `Set.prototype.size`: the number of live entries. -/
def entriesSize (l : List (Option String)) : Nat :=
  (l.filter Option.isSome).length

/-- Advance a set iterator positioned at `i` over the entry list it has
already dropped: skip tombstones, yield the next live value and the index
just past it. -/
def iterFrom : List (Option String) → Nat → Option (String × Nat)
  | [], _ => none
  | none :: rest, i => iterFrom rest (i + 1)
  | some v :: _, i => some (v, i + 1)

/-- `iterator.next()` for a `Set` iterator at index `i` of entry list `l`. -/
def iterNext (l : List (Option String)) (i : Nat) : Option (String × Nat) :=
  iterFrom (l.drop i) i

/-- One suspended `loadTopics` invocation: the iterator position of its
`for...of` loop over `selectedSubjects`, its local `allTopics` accumulator,
and the subject whose fetch it is awaiting. -/
structure TopicTask where
  iterIdx : Nat
  acc : List String
  pendingSubject : Option String
deriving DecidableEq

/-- State of the page with in-flight topic refreshes. -/
structure AsyncState where
  subjectEntries : List (Option String)
  topicsContainer : ContainerView
  subtopicsContainer : ContainerView
  tasks : List (Nat × TopicTask)
  nextTaskId : Nat
  errorLog : List String
deriving DecidableEq

/-- Events driving the interleaved model: a subject-checkbox change (running
`handleSubjectChange` synchronously up to the first suspension of the
refresh it spawns), or the arrival of the response awaited by one task. -/
inductive AsyncEvent where
  | userSelect (checked : List String)
  | respond (taskId : Nat) (outcome : FetchOutcome)

/-- Replace the state of task `tid`. -/
def updateTask (tasks : List (Nat × TopicTask)) (tid : Nat) (t : TopicTask) :
    List (Nat × TopicTask) :=
  tasks.map (fun p => if p.1 = tid then (p.1, t) else p)

/-- Small-step semantics of the interleaved page. -/
def stepAsync (st : AsyncState) : AsyncEvent → AsyncState
  | .userSelect checked =>
    let entries := checked.foldl entriesAdd (entriesClear st.subjectEntries)
    if entriesSize entries > 0 then
      match iterNext entries 0 with
      | some (s, i) =>
        { st with
            subjectEntries := entries
            topicsContainer := .loading "Loading topics..."
            tasks := st.tasks ++ [(st.nextTaskId, ⟨i, [], some s⟩)]
            nextTaskId := st.nextTaskId + 1 }
      | none =>
        { st with
            subjectEntries := entries
            topicsContainer := renderTopics (jsSort [])
            nextTaskId := st.nextTaskId + 1 }
    else
      { st with
          subjectEntries := entries
          topicsContainer := ContainerView.message "Select subjects first to see available topics"
          subtopicsContainer := ContainerView.message "Select topics first to see available subtopics" }
  | .respond tid outcome =>
    match st.tasks.find? (fun p => p.1 == tid) with
    | none => st
    | some (_, t) =>
      match t.pendingSubject with
      | none => st
      | some _ =>
        match outcome with
        | .transportError m =>
          { st with
              tasks := st.tasks.filter (fun p => p.1 != tid)
              errorLog := st.errorLog ++ ["Error loading topics: " ++ m] }
        | .reply status items _ =>
          let acc1 := if status = "success" then items.foldl jsSetAdd t.acc else t.acc
          match iterNext st.subjectEntries t.iterIdx with
          | some (s, i) =>
            { st with tasks := updateTask st.tasks tid ⟨i, acc1, some s⟩ }
          | none =>
            { st with
                topicsContainer := renderTopics (jsSort acc1)
                tasks := st.tasks.filter (fun p => p.1 != tid) }

/-- Run a sequence of events from a state. -/
def runAsync (st : AsyncState) (evs : List AsyncEvent) : AsyncState :=
  evs.foldl stepAsync st

/-- The interleaved model at interface load. -/
def asyncInit : AsyncState where
  subjectEntries := []
  topicsContainer := .message "Select subjects first to see available topics"
  subtopicsContainer := .message "Select topics first to see available subtopics"
  tasks := []
  nextTaskId := 0
  errorLog := []

/- ## Lexical scope of `create_paper.js`

The script declares sixteen top-level functions and nothing else at script
scope; the selection `Set`s are `let`-bound inside the `DOMContentLoaded`
callback (source lines 16-20).  A top-level function body resolves a free
name against script scope plus the host globals only.  We model a handler as
the ordered list of its name accesses and run it against a scope. -/

/-- Names declared at the top level of `create_paper.js` (the function
declarations at source lines 26-518). -/
def createPaperTopLevelFunctions : List String :=
  ["loadSubjects", "renderSubjects", "handleSubjectChange", "loadTopics",
   "renderTopics", "handleTopicChange", "loadSubtopics", "renderSubtopics",
   "clearTopics", "clearSubtopics", "handleFormSubmit", "collectFormData",
   "displayResults", "savePaper", "handleFormReset", "showError"]

/-- Host-environment globals the script uses. -/
def hostGlobals : List String :=
  ["document", "window", "fetch", "setTimeout", "alert", "JSON", "Array",
   "Object", "parseInt", "encodeURIComponent", "bootstrap", "Blob", "URL"]

/-- Everything a top-level function of `create_paper.js` can resolve. -/
def createPaperScriptScope : List String :=
  createPaperTopLevelFunctions ++ hostGlobals

/-- The `let`-bound locals of the `DOMContentLoaded` callback (source lines
8-20); invisible to top-level functions. -/
def domContentLoadedLocals : List String :=
  ["form", "resultsModal", "currentPaperData", "selectedSubjects",
   "selectedTopics", "selectedSubtopics"]

/-- One name access performed by a handler body: resolving an identifier, or
mutating state through an already-resolved reference. -/
inductive JsAccess where
  | read (n : String)
  | mutate (n : String)

/-- Result of running a handler body: normal completion, or a
`ReferenceError` on the first unresolvable identifier; either way the number
of state mutations performed up to that point. -/
inductive HandlerOutcome where
  | completed (mutations : Nat)
  | refErrorAt (name : String) (mutationsBefore : Nat)
deriving DecidableEq

/-- Run an access list against a scope: an identifier outside the scope
raises `ReferenceError` immediately, before any later mutation. -/
def runAccesses (scope : List String) (muts : Nat) : List JsAccess → HandlerOutcome
  | [] => .completed muts
  | .read n :: rest =>
    if n ∈ scope then runAccesses scope muts rest else .refErrorAt n muts
  | .mutate _ :: rest => runAccesses scope (muts + 1) rest

/-- Run a synchronous body and then, if it completed, the callback it
scheduled with `setTimeout`. -/
def runWithScheduled (scope : List String) (syncBody scheduled : List JsAccess) :
    HandlerOutcome :=
  match runAccesses scope 0 syncBody with
  | .completed m => runAccesses scope m scheduled
  | e => e

/-- Accesses of `handleSubjectChange` (source lines 84-98), linearised in
program order: `selectedSubjects.clear()`, the `querySelectorAll` walk whose
callback does `selectedSubjects.add(...)` (shown once; execution never gets
that far), the `selectedSubjects.size` test and the `loadTopics()` call of
the taken branch. -/
def handleSubjectChangeAccesses : List JsAccess :=
  [.read "selectedSubjects", .mutate "selectedSubjects",
   .read "document",
   .read "selectedSubjects", .mutate "selectedSubjects",
   .read "selectedSubjects",
   .read "loadTopics"]

/-- Accesses of `handleTopicChange` (source lines 170-183). -/
def handleTopicChangeAccesses : List JsAccess :=
  [.read "selectedTopics", .mutate "selectedTopics",
   .read "document",
   .read "selectedTopics", .mutate "selectedTopics",
   .read "selectedTopics",
   .read "loadSubtopics"]

/-- The synchronous body of `handleFormReset` (source lines 504-513): it only
schedules a callback. -/
def handleFormResetSyncAccesses : List JsAccess :=
  [.read "setTimeout"]

/-- The callback `handleFormReset` schedules (source lines 505-512). -/
def handleFormResetTimeoutAccesses : List JsAccess :=
  [.read "selectedSubjects", .mutate "selectedSubjects",
   .read "selectedTopics", .mutate "selectedTopics",
   .read "selectedSubtopics", .mutate "selectedSubtopics",
   .read "clearTopics", .read "clearSubtopics",
   .read "document", .mutate "document"]

/- ## The markdown formatting helper

`insertMarkdownFormat` (source lines 1106-1123) lives inside a
`DOMContentLoaded` callback together with `markdownInput`, so it has no
scoping problem.  A textarea is its value plus the selection range. -/

/-- A textarea: value as a character list, plus the selection range. -/
structure TextAreaState where
  value : List Char
  selStart : Nat
  selEnd : Nat
deriving DecidableEq

/-- `String.prototype.substring(a, b)`: clamp both indices to the string
length and swap them if needed, then slice. -/
def jsSubstring (v : List Char) (a b : Nat) : List Char :=
  let aC := min a v.length
  let bC := min b v.length
  (v.take (max aC bC)).drop (min aC bC)

/-- `insertMarkdownFormat(before, after)` (source lines 1106-1123): wrap the
selected text, splice the result into the value, and collapse the selection
at the end of the inserted text via `setSelectionRange`. -/
def insertMarkdownFormat (before after : List Char) (ta : TextAreaState) :
    TextAreaState :=
  let start := ta.selStart
  let stop := ta.selEnd
  let selectedText := jsSubstring ta.value start stop
  let replacement := before ++ selectedText ++ after
  let newValue :=
    jsSubstring ta.value 0 start ++ replacement ++ jsSubstring ta.value stop ta.value.length
  let newCursorPos := start + before.length + selectedText.length + after.length
  ⟨newValue, newCursorPos, newCursorPos⟩

/- ## Concrete scenarios used by witnesses and counterexamples -/

/-- Backend of the spec scenario: Math has topics Algebra and Geometry,
Physics has Mechanics and Algebra. -/
def scenarioBackend : Backend where
  topics := fun s =>
    if s = "Math" then .reply "success" ["Algebra", "Geometry"] ""
    else if s = "Physics" then .reply "success" ["Mechanics", "Algebra"] ""
    else .reply "error" [] "unknown subject"
  subtopics := fun _ _ => .reply "success" [] ""

/-- The topic list each subject of the scenario backend replies with. -/
def mathPhysicsTopics (s : String) : List String :=
  if s = "Math" then ["Algebra", "Geometry"]
  else if s = "Physics" then ["Mechanics", "Algebra"]
  else []

/-- Page state with subjects Math and Physics selected. -/
def mathPhysicsState : PageState :=
  { initialPageState with selectedSubjects := ["Math", "Physics"] }

/-- Backend where the Physics topics query fails at the application level
(non-success status) while the Math query succeeds. -/
def appErrorBackend : Backend where
  topics := fun s =>
    if s = "Math" then .reply "success" ["Algebra"] ""
    else .reply "error" [] "invalid subject"
  subtopics := fun _ _ => .reply "success" [] ""

/-- Backend where every query fails with a transport error. -/
def transportFailBackend : Backend where
  topics := fun _ => .transportError "Failed to fetch"
  subtopics := fun _ _ => .transportError "Failed to fetch"

/-- Page state that has already published topic and subtopic options, about
to be refreshed again. -/
def priorOptionsState : PageState :=
  { initialPageState with
      selectedSubjects := ["Math"]
      topicsContainer := .options ["Algebra"]
      subtopicsContainer := .options ["Limits"] }

/-- All-success backend with one subtopic per (subject, topic) pair. -/
def pairBackend : Backend where
  topics := fun _ => .reply "success" [] ""
  subtopics := fun s t => .reply "success" [s ++ "-" ++ t] ""

/-- Two subjects and one topic selected. -/
def pairState : PageState :=
  { initialPageState with
      selectedSubjects := ["Math", "Physics"]
      selectedTopics := ["Algebra"] }

/-- Backend for the stale-selection trace: Math contains topic Algebra,
which contains subtopic Linear. -/
def staleBackend : Backend where
  topics := fun s =>
    if s = "Math" then .reply "success" ["Algebra"] ""
    else .reply "error" [] "unknown subject"
  subtopics := fun s t =>
    if s = "Math" then
      if t = "Algebra" then .reply "success" ["Linear"] ""
      else .reply "error" [] "unknown topic"
    else .reply "error" [] "unknown subject"

/-- Select subject Math. -/
def staleTrace1 : PageState := handleSubjectChange staleBackend ["Math"] initialPageState

/-- Then select topic Algebra. -/
def staleTrace2 : PageState := handleTopicChange staleBackend ["Algebra"] staleTrace1

/-- Then deselect every subject. -/
def staleTrace3 : PageState := handleSubjectChange staleBackend [] staleTrace2

/-- Overlapping refreshes: generation 1 starts for subject Math and suspends
at its fetch; generation 2 (deselecting every subject) completes, publishing
empty options; then generation 1's response arrives. -/
def overlappingEvents : List AsyncEvent :=
  [.userSelect ["Math"],
   .userSelect [],
   .respond 0 (.reply "success" ["Algebra"] "")]

/-- Status field of each `appErrorBackend` topics reply. -/
def appStatus (s : String) : String := if s = "Math" then "success" else "error"

/-- Item list of each `appErrorBackend` topics reply. -/
def appItems (s : String) : List String := if s = "Math" then ["Algebra"] else []

/-- Message field of each `appErrorBackend` topics reply. -/
def appMsg (s : String) : String := if s = "Math" then "" else "invalid subject"

/-- A textarea holding `hello world` with `hello` selected. -/
def markdownTA : TextAreaState where
  value := "hello world".data
  selStart := 0
  selEnd := 5

/-- The wrapper inserted by the Ctrl+B shortcut. -/
def boldMarker : List Char := "**".data

/- ## Helper lemmas -/

/-- The JavaScript default sort comparator is total. -/
theorem lexLe_total (a b : List Char) : lexLe a b = true ∨ lexLe b a = true := by
  induction a generalizing b with
  | nil => exact Or.inl rfl
  | cons x xs ih =>
    cases b with
    | nil => exact Or.inr rfl
    | cons y ys =>
      simp only [lexLe]
      rcases Nat.lt_trichotomy x.toNat y.toNat with h | h | h
      · left; simp [h]
      · have hxy : ¬ x.toNat < y.toNat := by omega
        have hyx : ¬ y.toNat < x.toNat := by omega
        rcases ih ys with h2 | h2
        · left; simp [hxy, hyx, h2]
        · right; simp [hxy, hyx, h2]
      · right; simp [h, Nat.lt_asymm h]

/-- The JavaScript default sort comparator is transitive. -/
theorem lexLe_trans {a b c : List Char} (h1 : lexLe a b = true)
    (h2 : lexLe b c = true) : lexLe a c = true := by
  induction a generalizing b c with
  | nil => rfl
  | cons x xs ih =>
    cases b with
    | nil => simp [lexLe] at h1
    | cons y ys =>
      cases c with
      | nil => simp [lexLe] at h2
      | cons z zs =>
        simp only [lexLe] at h1 h2 ⊢
        by_cases hxy : x.toNat < y.toNat
        · by_cases hyz : y.toNat < z.toNat
          · simp [hxy.trans hyz]
          · by_cases hzy : z.toNat < y.toNat
            · simp [hyz, hzy] at h2
            · have hxz : x.toNat < z.toNat := by omega
              simp [hxz]
        · by_cases hyx : y.toNat < x.toNat
          · simp [hxy, hyx] at h1
          · simp only [if_neg hxy, if_neg hyx] at h1
            by_cases hyz : y.toNat < z.toNat
            · have hxz : x.toNat < z.toNat := by omega
              simp [hxz]
            · by_cases hzy : z.toNat < y.toNat
              · simp [hyz, hzy] at h2
              · have hxz : ¬ x.toNat < z.toNat := by omega
                have hzx : ¬ z.toNat < x.toNat := by omega
                simp only [if_neg hyz, if_neg hzy] at h2
                simp only [if_neg hxz, if_neg hzx]
                exact ih h1 h2

/-- Membership after a single `Set.add`. -/
theorem mem_jsSetAdd (acc : List String) (y x : String) :
    x ∈ jsSetAdd acc y ↔ x ∈ acc ∨ x = y := by
  unfold jsSetAdd
  by_cases h : y ∈ acc
  · simp only [if_pos h]
    constructor
    · exact Or.inl
    · rintro (hx | rfl)
      · exact hx
      · exact h
  · simp [if_neg h]

/-- `Set.add` preserves freedom from duplicates. -/
theorem nodup_jsSetAdd (acc : List String) (y : String) (h : acc.Nodup) :
    (jsSetAdd acc y).Nodup := by
  unfold jsSetAdd
  by_cases hy : y ∈ acc
  · simpa [hy] using h
  · rw [if_neg hy, List.nodup_append]
    exact ⟨h, List.nodup_singleton y, by simpa using hy⟩

/-- Membership after `forEach(add)` over a reply's item list. -/
theorem mem_foldl_jsSetAdd (items : List String) :
    ∀ acc x, x ∈ items.foldl jsSetAdd acc ↔ x ∈ acc ∨ x ∈ items := by
  induction items with
  | nil => simp
  | cons i rest ih =>
    intro acc x
    simp only [List.foldl_cons, ih, mem_jsSetAdd, List.mem_cons]
    tauto

/-- `forEach(add)` preserves freedom from duplicates. -/
theorem nodup_foldl_jsSetAdd (items : List String) :
    ∀ acc, acc.Nodup → (items.foldl jsSetAdd acc).Nodup := by
  induction items with
  | nil => intro acc h; simpa
  | cons i rest ih => intro acc h; exact ih _ (nodup_jsSetAdd _ _ h)

/-- Membership in the success-only accumulator. -/
theorem mem_collectSuccess {α : Type} (stf : α → String) (itf : α → List String)
    (parents : List α) :
    ∀ acc x, x ∈ collectSuccess stf itf parents acc ↔
      x ∈ acc ∨ ∃ p, p ∈ parents ∧ stf p = "success" ∧ x ∈ itf p := by
  induction parents with
  | nil => simp [collectSuccess]
  | cons p rest ih =>
    intro acc x
    simp only [collectSuccess, ih, List.mem_cons]
    by_cases h : stf p = "success"
    · simp only [if_pos h, mem_foldl_jsSetAdd]
      constructor
      · rintro ((hx | hx) | ⟨q, hq, hs, hi⟩)
        · exact Or.inl hx
        · exact Or.inr ⟨p, Or.inl rfl, h, hx⟩
        · exact Or.inr ⟨q, Or.inr hq, hs, hi⟩
      · rintro (hx | ⟨q, (rfl | hq), hs, hi⟩)
        · exact Or.inl (Or.inl hx)
        · exact Or.inl (Or.inr hi)
        · exact Or.inr ⟨q, hq, hs, hi⟩
    · simp only [if_neg h]
      constructor
      · rintro (hx | ⟨q, hq, hs, hi⟩)
        · exact Or.inl hx
        · exact Or.inr ⟨q, Or.inr hq, hs, hi⟩
      · rintro (hx | ⟨q, (rfl | hq), hs, hi⟩)
        · exact Or.inl hx
        · exact absurd hs h
        · exact Or.inr ⟨q, hq, hs, hi⟩

/-- The success-only accumulator never introduces duplicates. -/
theorem nodup_collectSuccess {α : Type} (stf : α → String) (itf : α → List String)
    (parents : List α) :
    ∀ acc, acc.Nodup → (collectSuccess stf itf parents acc).Nodup := by
  induction parents with
  | nil => intro acc h; simpa [collectSuccess]
  | cons p rest ih =>
    intro acc h
    unfold collectSuccess
    by_cases hs : stf p = "success"
    · exact ih _ (by simpa [hs] using nodup_foldl_jsSetAdd (itf p) acc h)
    · simpa [hs] using ih _ h

/-- When every parent's query replies (no transport error), the fetch loop
visits every parent, logging one request each, and accumulates exactly the
success-status children. -/
theorem fetchChildren_replies {α : Type} (query : α → FetchOutcome)
    (stf : α → String) (itf : α → List String) (msf : α → String)
    (parents : List α) :
    ∀ log acc, (∀ p ∈ parents, query p = .reply (stf p) (itf p) (msf p)) →
      fetchChildren query parents log acc =
        (log ++ parents, .ok (collectSuccess stf itf parents acc)) := by
  induction parents with
  | nil => intro log acc _; simp [fetchChildren, collectSuccess]
  | cons p rest ih =>
    intro log acc h
    have hp := h p (List.mem_cons_self _ _)
    rw [fetchChildren, hp]
    dsimp only
    rw [ih _ _ (fun q hq => h q (List.mem_cons_of_mem _ hq))]
    simp [collectSuccess]

/-- A transport error at parent `bad` aborts the fetch loop: requests are
logged only up to and including `bad`, and the error propagates. -/
theorem fetchChildren_transport {α : Type} (query : α → FetchOutcome)
    (stf : α → String) (itf : α → List String) (msf : α → String)
    (good : List α) (bad : α) (rest : List α) (m : String) :
    ∀ log acc, (∀ p ∈ good, query p = .reply (stf p) (itf p) (msf p)) →
      query bad = .transportError m →
      fetchChildren query (good ++ bad :: rest) log acc =
        (log ++ good ++ [bad], .error m) := by
  induction good with
  | nil => intro log acc _ hbad; rw [List.nil_append, fetchChildren, hbad]; simp
  | cons p gs ih =>
    intro log acc h hbad
    have hp := h p (List.mem_cons_self _ _)
    rw [List.cons_append, fetchChildren, hp]
    dsimp only
    rw [ih _ _ (fun q hq => h q (List.mem_cons_of_mem _ hq)) hbad]
    simp

/-- A rendered topics container offers exactly the rendered list. -/
theorem availableOptions_renderTopics (l : List String) :
    (renderTopics l).availableOptions = l := by
  unfold renderTopics
  by_cases h : l.length = 0
  · simp [h, List.length_eq_zero.mp h, ContainerView.availableOptions]
  · simp [h, ContainerView.availableOptions]

/-- A rendered subtopics container offers exactly the rendered list. -/
theorem availableOptions_renderSubtopics (l : List String) :
    (renderSubtopics l).availableOptions = l := by
  unfold renderSubtopics
  by_cases h : l.length = 0
  · simp [h, List.length_eq_zero.mp h, ContainerView.availableOptions]
  · simp [h, ContainerView.availableOptions]

/-- `loadTopics` when every selected subject's query replies: one request per
subject, the success-status unions rendered sorted, no error surfaced. -/
theorem loadTopics_replies (b : Backend) (st : PageState)
    (stf : String → String) (itf : String → List String) (msf : String → String)
    (h : ∀ s ∈ st.selectedSubjects, b.topics s = .reply (stf s) (itf s) (msf s)) :
    loadTopics b st =
      { st with
          topicsContainer := renderTopics (jsSort (collectSuccess stf itf st.selectedSubjects []))
          topicRequests := st.topicRequests ++ st.selectedSubjects } := by
  unfold loadTopics
  rw [fetchChildren_replies b.topics stf itf msf st.selectedSubjects [] [] h]
  simp

/-- `loadTopics` when the query for `bad` throws a transport error after the
subjects in `good` replied: the loop aborts, `showError` fires, and the
container is left in the spinner state. -/
theorem loadTopics_transport (b : Backend) (st : PageState)
    (stf : String → String) (itf : String → List String) (msf : String → String)
    (good : List String) (bad : String) (rest : List String) (m : String)
    (hsel : st.selectedSubjects = good ++ bad :: rest)
    (h : ∀ s ∈ good, b.topics s = .reply (stf s) (itf s) (msf s))
    (hbad : b.topics bad = .transportError m) :
    loadTopics b st =
      { st with
          topicsContainer := .loading "Loading topics..."
          topicRequests := st.topicRequests ++ (good ++ [bad])
          errorLog := st.errorLog ++ ["Error loading topics: " ++ m] } := by
  unfold loadTopics
  rw [hsel, fetchChildren_transport b.topics stf itf msf good bad rest m [] [] h hbad]
  simp

/-- `loadSubtopics` when every (subject, topic) pair's query replies. -/
theorem loadSubtopics_replies (b : Backend) (st : PageState)
    (stf : String × String → String) (itf : String × String → List String)
    (msf : String × String → String)
    (h : ∀ p ∈ subjectTopicPairs st.selectedSubjects st.selectedTopics,
      b.subtopics p.1 p.2 = .reply (stf p) (itf p) (msf p)) :
    loadSubtopics b st =
      { st with
          subtopicsContainer := renderSubtopics (jsSort
            (collectSuccess stf itf (subjectTopicPairs st.selectedSubjects st.selectedTopics) []))
          subtopicRequests := st.subtopicRequests ++
            subjectTopicPairs st.selectedSubjects st.selectedTopics } := by
  unfold loadSubtopics
  rw [fetchChildren_replies (fun p : String × String => b.subtopics p.1 p.2) stf itf msf
    (subjectTopicPairs st.selectedSubjects st.selectedTopics) [] [] h]
  simp

/-- The topics container produced by `loadTopics` is a function of the
backend and the selected subjects alone. -/
theorem loadTopics_topicsContainer (b : Backend) (st : PageState) :
    (loadTopics b st).topicsContainer = topicsResult b.topics st.selectedSubjects := by
  rcases hfc : fetchChildren b.topics st.selectedSubjects [] [] with ⟨log, res⟩
  cases res <;> simp [loadTopics, topicsResult, hfc]

/-- `loadTopics` touches neither the selection sets nor the subtopics
container. -/
theorem loadTopics_frame (b : Backend) (st : PageState) :
    (loadTopics b st).selectedSubjects = st.selectedSubjects ∧
    (loadTopics b st).selectedTopics = st.selectedTopics ∧
    (loadTopics b st).selectedSubtopics = st.selectedSubtopics ∧
    (loadTopics b st).subtopicsContainer = st.subtopicsContainer := by
  rcases hfc : fetchChildren b.topics st.selectedSubjects [] [] with ⟨log, res⟩
  cases res <;> simp [loadTopics, hfc]

/-- `loadSubtopics` when the query for pair `bad` throws a transport error
after the pairs in `good` replied: the loop aborts, `showError` fires, and
the subtopics container is left in the spinner state. -/
theorem loadSubtopics_transport (b : Backend) (st : PageState)
    (stf : String × String → String) (itf : String × String → List String)
    (msf : String × String → String)
    (good : List (String × String)) (bad : String × String)
    (rest : List (String × String)) (m : String)
    (hsel : subjectTopicPairs st.selectedSubjects st.selectedTopics = good ++ bad :: rest)
    (h : ∀ p ∈ good, b.subtopics p.1 p.2 = .reply (stf p) (itf p) (msf p))
    (hbad : b.subtopics bad.1 bad.2 = .transportError m) :
    loadSubtopics b st =
      { st with
          subtopicsContainer := .loading "Loading subtopics..."
          subtopicRequests := st.subtopicRequests ++ (good ++ [bad])
          errorLog := st.errorLog ++ ["Error loading subtopics: " ++ m] } := by
  unfold loadSubtopics
  rw [hsel, fetchChildren_transport (fun p : String × String => b.subtopics p.1 p.2)
    stf itf msf good bad rest m [] [] h hbad]
  simp

/-- The subtopics container produced by `loadSubtopics` is a function of the
backend and the (subject, topic) pair list alone. -/
theorem loadSubtopics_subtopicsContainer (b : Backend) (st : PageState) :
    (loadSubtopics b st).subtopicsContainer =
      subtopicsResult b.subtopics (subjectTopicPairs st.selectedSubjects st.selectedTopics) := by
  rcases hfc : fetchChildren (fun p : String × String => b.subtopics p.1 p.2)
      (subjectTopicPairs st.selectedSubjects st.selectedTopics) [] [] with ⟨log, res⟩
  cases res <;> simp [loadSubtopics, subtopicsResult, hfc]

/-- `loadSubtopics` touches neither the selection sets nor the topics
container. -/
theorem loadSubtopics_frame (b : Backend) (st : PageState) :
    (loadSubtopics b st).selectedSubjects = st.selectedSubjects ∧
    (loadSubtopics b st).selectedTopics = st.selectedTopics ∧
    (loadSubtopics b st).selectedSubtopics = st.selectedSubtopics ∧
    (loadSubtopics b st).topicsContainer = st.topicsContainer := by
  rcases hfc : fetchChildren (fun p : String × String => b.subtopics p.1 p.2)
      (subjectTopicPairs st.selectedSubjects st.selectedTopics) [] [] with ⟨log, res⟩
  cases res <;> simp [loadSubtopics, hfc]

/- ## Claims -/

/-- C1: for every non-empty set of selected subjects whose per-subject
children queries all succeed, the published topic options are exactly the
lexicographically sorted, deduplicated union of the returned topic lists:
the published sequence is sorted under the JavaScript comparator, free of
duplicates, and contains precisely the topics returned for some selected
subject. -/
theorem loadTopics_publishes_sorted_dedup_union
    (b : Backend) (st : PageState) (itf : String → List String) (msf : String → String)
    (hne : st.selectedSubjects ≠ [])
    (h : ∀ s ∈ st.selectedSubjects, b.topics s = .reply "success" (itf s) (msf s)) :
    List.Sorted strLeRel ((loadTopics b st).topicsContainer.availableOptions) ∧
    ((loadTopics b st).topicsContainer.availableOptions).Nodup ∧
    ∀ t, t ∈ (loadTopics b st).topicsContainer.availableOptions ↔
      ∃ s, s ∈ st.selectedSubjects ∧ t ∈ itf s := by
  haveI : IsTotal String strLeRel := ⟨fun a b => lexLe_total a.data b.data⟩
  haveI : IsTrans String strLeRel := ⟨fun _ _ _ h1 h2 => lexLe_trans h1 h2⟩
  have hlt := loadTopics_replies b st (fun _ => "success") itf msf h
  rw [hlt]
  have hopts :
      ({ st with
          topicsContainer := renderTopics (jsSort
            (collectSuccess (fun _ => "success") itf st.selectedSubjects []))
          topicRequests := st.topicRequests ++ st.selectedSubjects } :
        PageState).topicsContainer.availableOptions =
      jsSort (collectSuccess (fun _ => "success") itf st.selectedSubjects []) :=
    availableOptions_renderTopics _
  rw [hopts]
  have hperm := List.perm_insertionSort strLeRel
    (collectSuccess (fun _ => "success") itf st.selectedSubjects [])
  refine ⟨List.sorted_insertionSort strLeRel _, ?_, ?_⟩
  · exact hperm.nodup_iff.mpr (nodup_collectSuccess _ _ _ [] List.nodup_nil)
  · intro t
    rw [show jsSort (collectSuccess (fun _ => "success") itf st.selectedSubjects []) =
      List.insertionSort strLeRel (collectSuccess (fun _ => "success") itf st.selectedSubjects [])
      from rfl]
    rw [hperm.mem_iff, mem_collectSuccess]
    simp

/-- C1 witness: the spec scenario with subjects Math and Physics. -/
theorem loadTopics_publishes_sorted_dedup_union_witness :
    (mathPhysicsState.selectedSubjects ≠ []) ∧
    (∀ s ∈ mathPhysicsState.selectedSubjects,
      scenarioBackend.topics s = .reply "success" (mathPhysicsTopics s) "") ∧
    ((loadTopics scenarioBackend mathPhysicsState).topicsContainer.availableOptions =
      ["Algebra", "Geometry", "Mechanics"]) ∧
    (List.Sorted strLeRel
      ((loadTopics scenarioBackend mathPhysicsState).topicsContainer.availableOptions) ∧
    ((loadTopics scenarioBackend mathPhysicsState).topicsContainer.availableOptions).Nodup ∧
    ∀ t, t ∈ (loadTopics scenarioBackend mathPhysicsState).topicsContainer.availableOptions ↔
      ∃ s, s ∈ mathPhysicsState.selectedSubjects ∧ t ∈ mathPhysicsTopics s) :=
  ⟨by decide, by decide, by decide,
    loadTopics_publishes_sorted_dedup_union scenarioBackend mathPhysicsState
      mathPhysicsTopics (fun _ => "") (by decide) (by decide)⟩

/-- C2: every invocation of `handleSubjectChange`, `handleTopicChange` or
`handleFormReset` (the last via its scheduled timeout callback) raises a
`ReferenceError` before performing any state mutation, because the selection
`Set`s are `let`-bound inside the `DOMContentLoaded` callback while these
handlers are top-level functions reading those names; the refresh call that
would cascade (`loadTopics` / `loadSubtopics`) is never reached, so no
cascading refresh triggered by a checkbox change completes normally. -/
theorem handlers_reference_error_before_mutation :
    runAccesses createPaperScriptScope 0 handleSubjectChangeAccesses =
      .refErrorAt "selectedSubjects" 0 ∧
    runAccesses createPaperScriptScope 0 handleTopicChangeAccesses =
      .refErrorAt "selectedTopics" 0 ∧
    runWithScheduled createPaperScriptScope handleFormResetSyncAccesses
      handleFormResetTimeoutAccesses = .refErrorAt "selectedSubjects" 0 ∧
    ("selectedSubjects" ∈ domContentLoadedLocals ∧
      "selectedTopics" ∈ domContentLoadedLocals ∧
      "selectedSubtopics" ∈ domContentLoadedLocals) ∧
    ("selectedSubjects" ∉ createPaperScriptScope ∧
      "selectedTopics" ∉ createPaperScriptScope ∧
      "selectedSubtopics" ∉ createPaperScriptScope) := by decide

/-- C3 counterexample: subjects Math and Physics are selected; the Physics
topics query fails at the application level (status is not success), yet
`loadTopics` fires no `showError` and publishes the partial union of the
successful queries as if the refresh were complete. -/
theorem app_error_refresh_publishes_silently :
    appErrorBackend.topics "Physics" = .reply "error" [] "invalid subject" ∧
    "error" ≠ "success" ∧
    (loadTopics appErrorBackend mathPhysicsState).errorLog = [] ∧
    (loadTopics appErrorBackend mathPhysicsState).topicsContainer =
      .options ["Algebra"] := by decide

/-- C3 amended: only a transport error is signalled, at either level.  When
every query of a Topic or Subtopic refresh replies (even with a non-success
status), the refresh completes with no failure signal and publishes the
union over the success-status replies alone; when some query throws a
transport error, `showError` fires once and nothing is published for that
refresh (the refreshed container stays in the spinner state). -/
theorem refresh_failure_signalling_amended :
    (∀ (b : Backend) (st : PageState) (stf : String → String)
        (itf : String → List String) (msf : String → String),
      (∀ s ∈ st.selectedSubjects, b.topics s = .reply (stf s) (itf s) (msf s)) →
      (loadTopics b st).errorLog = st.errorLog ∧
      (loadTopics b st).topicsContainer =
        renderTopics (jsSort (collectSuccess stf itf st.selectedSubjects []))) ∧
    (∀ (b : Backend) (st : PageState) (stf : String → String)
        (itf : String → List String) (msf : String → String)
        (good : List String) (bad : String) (rest : List String) (m : String),
      st.selectedSubjects = good ++ bad :: rest →
      (∀ s ∈ good, b.topics s = .reply (stf s) (itf s) (msf s)) →
      b.topics bad = .transportError m →
      (loadTopics b st).errorLog = st.errorLog ++ ["Error loading topics: " ++ m] ∧
      (loadTopics b st).topicsContainer = .loading "Loading topics...") ∧
    (∀ (b : Backend) (st : PageState) (stf : String × String → String)
        (itf : String × String → List String) (msf : String × String → String),
      (∀ p ∈ subjectTopicPairs st.selectedSubjects st.selectedTopics,
        b.subtopics p.1 p.2 = .reply (stf p) (itf p) (msf p)) →
      (loadSubtopics b st).errorLog = st.errorLog ∧
      (loadSubtopics b st).subtopicsContainer =
        renderSubtopics (jsSort (collectSuccess stf itf
          (subjectTopicPairs st.selectedSubjects st.selectedTopics) []))) ∧
    (∀ (b : Backend) (st : PageState) (stf : String × String → String)
        (itf : String × String → List String) (msf : String × String → String)
        (good : List (String × String)) (bad : String × String)
        (rest : List (String × String)) (m : String),
      subjectTopicPairs st.selectedSubjects st.selectedTopics = good ++ bad :: rest →
      (∀ p ∈ good, b.subtopics p.1 p.2 = .reply (stf p) (itf p) (msf p)) →
      b.subtopics bad.1 bad.2 = .transportError m →
      (loadSubtopics b st).errorLog = st.errorLog ++ ["Error loading subtopics: " ++ m] ∧
      (loadSubtopics b st).subtopicsContainer = .loading "Loading subtopics...") := by
  refine ⟨?_, ?_, ?_, ?_⟩
  · intro b st stf itf msf h
    rw [loadTopics_replies b st stf itf msf h]
    exact ⟨rfl, rfl⟩
  · intro b st stf itf msf good bad rest m hsel h hbad
    rw [loadTopics_transport b st stf itf msf good bad rest m hsel h hbad]
    exact ⟨rfl, rfl⟩
  · intro b st stf itf msf h
    rw [loadSubtopics_replies b st stf itf msf h]
    exact ⟨rfl, rfl⟩
  · intro b st stf itf msf good bad rest m hsel h hbad
    rw [loadSubtopics_transport b st stf itf msf good bad rest m hsel h hbad]
    exact ⟨rfl, rfl⟩

/-- C3 amended witness: the app-level-failure scenario publishes silently; a
transport failure on the only selected subject signals once and leaves the
topic spinner; an all-success subtopic refresh publishes silently; a
transport failure on the first (subject, topic) pair signals once and leaves
the subtopic spinner. -/
theorem refresh_failure_signalling_amended_witness :
    ((loadTopics appErrorBackend mathPhysicsState).errorLog = mathPhysicsState.errorLog ∧
      (loadTopics appErrorBackend mathPhysicsState).topicsContainer =
        renderTopics (jsSort (collectSuccess appStatus appItems
          mathPhysicsState.selectedSubjects []))) ∧
    ((loadTopics transportFailBackend priorOptionsState).errorLog =
        priorOptionsState.errorLog ++ ["Error loading topics: " ++ "Failed to fetch"] ∧
      (loadTopics transportFailBackend priorOptionsState).topicsContainer =
        .loading "Loading topics...") ∧
    ((loadSubtopics pairBackend pairState).errorLog = pairState.errorLog ∧
      (loadSubtopics pairBackend pairState).subtopicsContainer =
        renderSubtopics (jsSort (collectSuccess (fun _ => "success")
          (fun p => [p.1 ++ "-" ++ p.2])
          (subjectTopicPairs pairState.selectedSubjects pairState.selectedTopics) []))) ∧
    ((loadSubtopics transportFailBackend pairState).errorLog =
        pairState.errorLog ++ ["Error loading subtopics: " ++ "Failed to fetch"] ∧
      (loadSubtopics transportFailBackend pairState).subtopicsContainer =
        .loading "Loading subtopics...") :=
  ⟨refresh_failure_signalling_amended.1 appErrorBackend mathPhysicsState
      appStatus appItems appMsg (by decide),
    refresh_failure_signalling_amended.2.1 transportFailBackend priorOptionsState
      (fun _ => "success") (fun _ => []) (fun _ => "") [] "Math" [] "Failed to fetch"
      (by decide) (by decide) (by decide),
    refresh_failure_signalling_amended.2.2.1 pairBackend pairState
      (fun _ => "success") (fun p => [p.1 ++ "-" ++ p.2]) (fun _ => "") (by decide),
    refresh_failure_signalling_amended.2.2.2 transportFailBackend pairState
      (fun _ => "success") (fun _ => []) (fun _ => "")
      [] ("Math", "Algebra") [("Physics", "Algebra")] "Failed to fetch"
      (by decide) (by decide) (by decide)⟩

/-- C5: whenever the subject selection becomes empty, both the topic and the
subtopic containers are published with zero options and no children query is
issued at either level (and no error is shown). -/
theorem empty_subject_selection_publishes_empty_without_requests
    (b : Backend) (st : PageState) :
    (handleSubjectChange b [] st).topicsContainer.availableOptions = [] ∧
    (handleSubjectChange b [] st).subtopicsContainer.availableOptions = [] ∧
    (handleSubjectChange b [] st).topicRequests = st.topicRequests ∧
    (handleSubjectChange b [] st).subtopicRequests = st.subtopicRequests ∧
    (handleSubjectChange b [] st).errorLog = st.errorLog :=
  ⟨rfl, rfl, rfl, rfl, rfl⟩

/-- C4 counterexample: a topic refresh for subject Math (generation 1)
suspends at its fetch; the user then empties the selection, and generation 2
completes immediately, publishing the empty placeholder.  When generation
1's response finally arrives, its results are published over generation 2's:
the final topic options are generation 1's, so it is not the case that only
generation 2's results are ever published. -/
theorem overlapping_refresh_gen1_overwrites_gen2 :
    (runAsync asyncInit [.userSelect ["Math"], .userSelect []]).topicsContainer =
      .message "Select subjects first to see available topics" ∧
    (runAsync asyncInit overlappingEvents).topicsContainer = .options ["Algebra"] ∧
    ContainerView.options ["Algebra"] ≠
      .message "Select subjects first to see available topics" := by decide

/-- C4 amended: the code has no generation discipline.  Whenever the
response that completes any in-flight topic refresh task arrives — however
stale that task is — the task's accumulated results are rendered into the
topics container unconditionally, so with overlapping refreshes the last
one to complete wins, regardless of which started last. -/
theorem respond_completion_overwrites_container
    (st : AsyncState) (tid tid0 : Nat) (t : TopicTask)
    (items : List String) (m s : String)
    (hfind : st.tasks.find? (fun p => p.1 == tid) = some (tid0, t))
    (hpend : t.pendingSubject = some s)
    (hdone : iterNext st.subjectEntries t.iterIdx = none) :
    (stepAsync st (.respond tid (.reply "success" items m))).topicsContainer =
      renderTopics (jsSort (items.foldl jsSetAdd t.acc)) := by
  unfold stepAsync
  dsimp only
  rw [hfind]
  dsimp only
  rw [hpend]
  dsimp only
  rw [hdone]
  simp

/-- C4 amended witness: in the counterexample trace, the arrival of
generation 1's response overwrites the container with generation 1's
results. -/
theorem respond_completion_overwrites_container_witness :
    ((runAsync asyncInit [.userSelect ["Math"], .userSelect []]).tasks.find?
        (fun p => p.1 == 0) = some (0, ⟨1, [], some "Math"⟩)) ∧
    (TopicTask.mk 1 [] (some "Math")).pendingSubject = some "Math" ∧
    iterNext (runAsync asyncInit [.userSelect ["Math"], .userSelect []]).subjectEntries 1 =
      none ∧
    (stepAsync (runAsync asyncInit [.userSelect ["Math"], .userSelect []])
        (.respond 0 (.reply "success" ["Algebra"] ""))).topicsContainer =
      renderTopics (jsSort (["Algebra"].foldl jsSetAdd [])) :=
  ⟨by decide, by decide, by decide,
    respond_completion_overwrites_container
      (runAsync asyncInit [.userSelect ["Math"], .userSelect []])
      0 0 ⟨1, [], some "Math"⟩ ["Algebra"] "" "Math"
      (by decide) (by decide) (by decide)⟩

/-- C6 counterexample: the topics container already shows options; a topic
refresh then fails with a transport error, and the previously published
options are replaced by the loading placeholder instead of being left in
their last-known-good state. -/
theorem failed_refresh_discards_previous_topic_options :
    priorOptionsState.topicsContainer = .options ["Algebra"] ∧
    (loadTopics transportFailBackend priorOptionsState).errorLog ≠
      priorOptionsState.errorLog ∧
    (loadTopics transportFailBackend priorOptionsState).topicsContainer =
      .loading "Loading topics..." ∧
    ContainerView.loading "Loading topics..." ≠ .options ["Algebra"] := by decide

/-- C6 amended: on a transport-failed refresh of either level, the levels
strictly below the refreshed one keep their last-known-good state and no
selection set changes (a failed Topic refresh leaves the subtopic container
untouched; a failed Subtopic refresh leaves the topic container untouched),
but the refreshed level itself is left showing the loading placeholder
installed at the start of the refresh rather than its previous options. -/
theorem failed_refresh_keeps_lower_levels :
    (∀ (b : Backend) (st : PageState) (stf : String → String)
        (itf : String → List String) (msf : String → String)
        (good : List String) (bad : String) (rest : List String) (m : String),
      st.selectedSubjects = good ++ bad :: rest →
      (∀ s ∈ good, b.topics s = .reply (stf s) (itf s) (msf s)) →
      b.topics bad = .transportError m →
      (loadTopics b st).subtopicsContainer = st.subtopicsContainer ∧
      (loadTopics b st).selectedSubjects = st.selectedSubjects ∧
      (loadTopics b st).selectedTopics = st.selectedTopics ∧
      (loadTopics b st).selectedSubtopics = st.selectedSubtopics ∧
      (loadTopics b st).topicsContainer = .loading "Loading topics...") ∧
    (∀ (b : Backend) (st : PageState) (stf : String × String → String)
        (itf : String × String → List String) (msf : String × String → String)
        (good : List (String × String)) (bad : String × String)
        (rest : List (String × String)) (m : String),
      subjectTopicPairs st.selectedSubjects st.selectedTopics = good ++ bad :: rest →
      (∀ p ∈ good, b.subtopics p.1 p.2 = .reply (stf p) (itf p) (msf p)) →
      b.subtopics bad.1 bad.2 = .transportError m →
      (loadSubtopics b st).topicsContainer = st.topicsContainer ∧
      (loadSubtopics b st).selectedSubjects = st.selectedSubjects ∧
      (loadSubtopics b st).selectedTopics = st.selectedTopics ∧
      (loadSubtopics b st).selectedSubtopics = st.selectedSubtopics ∧
      (loadSubtopics b st).subtopicsContainer = .loading "Loading subtopics...") := by
  constructor
  · intro b st stf itf msf good bad rest m hsel h hbad
    rw [loadTopics_transport b st stf itf msf good bad rest m hsel h hbad]
    exact ⟨rfl, rfl, rfl, rfl, rfl⟩
  · intro b st stf itf msf good bad rest m hsel h hbad
    rw [loadSubtopics_transport b st stf itf msf good bad rest m hsel h hbad]
    exact ⟨rfl, rfl, rfl, rfl, rfl⟩

/-- C6 amended witness: a transport-failed topic refresh on a page that had
already published topic and subtopic options, and a transport-failed
subtopic refresh with two subjects and a topic selected. -/
theorem failed_refresh_keeps_lower_levels_witness :
    ((loadTopics transportFailBackend priorOptionsState).subtopicsContainer =
        priorOptionsState.subtopicsContainer ∧
      (loadTopics transportFailBackend priorOptionsState).selectedSubjects =
        priorOptionsState.selectedSubjects ∧
      (loadTopics transportFailBackend priorOptionsState).selectedTopics =
        priorOptionsState.selectedTopics ∧
      (loadTopics transportFailBackend priorOptionsState).selectedSubtopics =
        priorOptionsState.selectedSubtopics ∧
      (loadTopics transportFailBackend priorOptionsState).topicsContainer =
        .loading "Loading topics...") ∧
    ((loadSubtopics transportFailBackend pairState).topicsContainer =
        pairState.topicsContainer ∧
      (loadSubtopics transportFailBackend pairState).selectedSubjects =
        pairState.selectedSubjects ∧
      (loadSubtopics transportFailBackend pairState).selectedTopics =
        pairState.selectedTopics ∧
      (loadSubtopics transportFailBackend pairState).selectedSubtopics =
        pairState.selectedSubtopics ∧
      (loadSubtopics transportFailBackend pairState).subtopicsContainer =
        .loading "Loading subtopics...") ∧
    priorOptionsState.subtopicsContainer = .options ["Limits"] :=
  ⟨failed_refresh_keeps_lower_levels.1 transportFailBackend priorOptionsState
      (fun _ => "success") (fun _ => []) (fun _ => "") [] "Math" [] "Failed to fetch"
      (by decide) (by decide) (by decide),
    failed_refresh_keeps_lower_levels.2 transportFailBackend pairState
      (fun _ => "success") (fun _ => []) (fun _ => "")
      [] ("Math", "Algebra") [("Physics", "Algebra")] "Failed to fetch"
      (by decide) (by decide) (by decide),
    by decide⟩

/-- C7 counterexample: with two subjects and one topic selected, the
subtopic refresh issues two children queries — one per (subject, topic)
pair — not one per selected topic as the claim states. -/
theorem subtopic_refresh_one_request_per_pair :
    pairState.selectedTopics.length = 1 ∧
    (loadSubtopics pairBackend pairState).subtopicRequests.length = 2 ∧
    (loadSubtopics pairBackend pairState).subtopicRequests =
      [("Math", "Algebra"), ("Physics", "Algebra")] ∧
    (2 : Nat) ≠ 1 := by decide

/-- C7 amended: a topic refresh issues exactly one children query per
selected subject, in selection order; a subtopic refresh issues exactly one
query per (selected subject, selected topic) pair, not one per selected
topic; in both cases the widget is repopulated only once, after the
sequential request loop has completed, with the union of all settled
results. -/
theorem refresh_request_cardinality :
    (∀ (b : Backend) (st : PageState) (stf : String → String)
        (itf : String → List String) (msf : String → String),
      (∀ s ∈ st.selectedSubjects, b.topics s = .reply (stf s) (itf s) (msf s)) →
      (loadTopics b st).topicRequests = st.topicRequests ++ st.selectedSubjects ∧
      (loadTopics b st).topicsContainer =
        renderTopics (jsSort (collectSuccess stf itf st.selectedSubjects []))) ∧
    (∀ (b : Backend) (st : PageState) (stf : String × String → String)
        (itf : String × String → List String) (msf : String × String → String),
      (∀ p ∈ subjectTopicPairs st.selectedSubjects st.selectedTopics,
        b.subtopics p.1 p.2 = .reply (stf p) (itf p) (msf p)) →
      (loadSubtopics b st).subtopicRequests =
        st.subtopicRequests ++ subjectTopicPairs st.selectedSubjects st.selectedTopics ∧
      (loadSubtopics b st).subtopicsContainer =
        renderSubtopics (jsSort (collectSuccess stf itf
          (subjectTopicPairs st.selectedSubjects st.selectedTopics) []))) := by
  constructor
  · intro b st stf itf msf h
    rw [loadTopics_replies b st stf itf msf h]
    exact ⟨rfl, rfl⟩
  · intro b st stf itf msf h
    rw [loadSubtopics_replies b st stf itf msf h]
    exact ⟨rfl, rfl⟩

/-- C7 amended witness: the two-subject one-topic scenario. -/
theorem refresh_request_cardinality_witness :
    ((loadTopics pairBackend pairState).topicRequests =
        pairState.topicRequests ++ pairState.selectedSubjects ∧
      (loadTopics pairBackend pairState).topicsContainer =
        renderTopics (jsSort (collectSuccess (fun _ => "success") (fun _ => [])
          pairState.selectedSubjects []))) ∧
    ((loadSubtopics pairBackend pairState).subtopicRequests =
        pairState.subtopicRequests ++
          subjectTopicPairs pairState.selectedSubjects pairState.selectedTopics ∧
      (loadSubtopics pairBackend pairState).subtopicsContainer =
        renderSubtopics (jsSort (collectSuccess (fun _ => "success")
          (fun p => [p.1 ++ "-" ++ p.2])
          (subjectTopicPairs pairState.selectedSubjects pairState.selectedTopics) []))) :=
  ⟨refresh_request_cardinality.1 pairBackend pairState
      (fun _ => "success") (fun _ => []) (fun _ => "") (by decide),
    refresh_request_cardinality.2 pairBackend pairState
      (fun _ => "success") (fun p => [p.1 ++ "-" ++ p.2]) (fun _ => "") (by decide)⟩

/-- A subject change always installs the rebuilt selection. -/
theorem handleSubjectChange_selectedSubjects
    (b : Backend) (checked : List String) (st : PageState) :
    (handleSubjectChange b checked st).selectedSubjects = dedupInsert checked := by
  unfold handleSubjectChange
  dsimp only
  by_cases h : (dedupInsert checked).length > 0
  · rw [if_pos h]
    exact (loadTopics_frame b _).1
  · rw [if_neg h]
    rfl

/-- The topics container after a subject change depends only on the backend
and the rebuilt selection. -/
theorem handleSubjectChange_topicsContainer
    (b : Backend) (checked : List String) (st : PageState) :
    (handleSubjectChange b checked st).topicsContainer =
      if (dedupInsert checked).length > 0 then topicsResult b.topics (dedupInsert checked)
      else .message "Select subjects first to see available topics" := by
  unfold handleSubjectChange
  dsimp only
  by_cases h : (dedupInsert checked).length > 0
  · rw [if_pos h, if_pos h, loadTopics_topicsContainer]
  · rw [if_neg h, if_neg h]
    rfl

/-- A topic change always installs the rebuilt topic selection. -/
theorem handleTopicChange_selectedTopics
    (b : Backend) (checked : List String) (st : PageState) :
    (handleTopicChange b checked st).selectedTopics = dedupInsert checked := by
  unfold handleTopicChange
  dsimp only
  by_cases h : (dedupInsert checked).length > 0
  · rw [if_pos h]
    exact (loadSubtopics_frame b _).2.1
  · rw [if_neg h]
    rfl

/-- The subtopics container after a topic change depends only on the
backend, the subject selection and the rebuilt topic selection. -/
theorem handleTopicChange_subtopicsContainer
    (b : Backend) (checked : List String) (st : PageState) :
    (handleTopicChange b checked st).subtopicsContainer =
      if (dedupInsert checked).length > 0 then
        subtopicsResult b.subtopics
          (subjectTopicPairs st.selectedSubjects (dedupInsert checked))
      else .message "Select topics first to see available subtopics" := by
  unfold handleTopicChange
  dsimp only
  by_cases h : (dedupInsert checked).length > 0
  · rw [if_pos h, if_pos h, loadSubtopics_subtopicsContainer]
  · rw [if_neg h, if_neg h]
    rfl

/-- C8: setting the subject selection to the same checked set twice in a row
publishes the same topic options, and rebuilds the same subject selection,
as setting it once: each refresh rebuilds the options from scratch, so
nothing accumulates. -/
theorem subject_selection_idempotent
    (b : Backend) (checked : List String) (st : PageState) :
    (handleSubjectChange b checked (handleSubjectChange b checked st)).topicsContainer =
      (handleSubjectChange b checked st).topicsContainer ∧
    (handleSubjectChange b checked (handleSubjectChange b checked st)).selectedSubjects =
      (handleSubjectChange b checked st).selectedSubjects := by
  constructor
  · rw [handleSubjectChange_topicsContainer, handleSubjectChange_topicsContainer]
  · rw [handleSubjectChange_selectedSubjects, handleSubjectChange_selectedSubjects]

/-- C9 counterexample: select subject Math, then topic Algebra, then
deselect every subject; `selectedTopics` still contains Algebra although no
subject at all is selected, so the claimed invariant does not hold and the
dependent selection was not discarded on the parent change. -/
theorem stale_topic_selection_after_parent_clear :
    staleTrace2.selectedSubjects = ["Math"] ∧
    staleTrace2.selectedTopics = ["Algebra"] ∧
    staleTrace3.selectedSubjects = [] ∧
    staleTrace3.selectedTopics = ["Algebra"] ∧
    (["Algebra"] : List String) ≠ [] := by decide

/-- C9 amended: every parent-selection change rebuilds only its dependent
level's options container (from scratch); it leaves the dependent selection
sets untouched.  A subject change leaves `selectedTopics` and
`selectedSubtopics` — and, when its new selection is non-empty, the subtopic
options — as they were; a topic change leaves `selectedSubtopics` (and the
subject level) as they were.  Dependent selections therefore persist until
the next change event at their own level, and the containment invariant is
not enforced. -/
theorem parent_change_rebuilds_options_not_selection
    (b : Backend) (checked : List String) (st : PageState) :
    (handleSubjectChange b checked st).selectedTopics = st.selectedTopics ∧
    (handleSubjectChange b checked st).selectedSubtopics = st.selectedSubtopics ∧
    (handleSubjectChange b checked st).topicsContainer =
      (if (dedupInsert checked).length > 0 then topicsResult b.topics (dedupInsert checked)
        else .message "Select subjects first to see available topics") ∧
    (handleSubjectChange b checked st).subtopicsContainer =
      (if (dedupInsert checked).length > 0 then st.subtopicsContainer
        else .message "Select topics first to see available subtopics") ∧
    (handleTopicChange b checked st).selectedSubjects = st.selectedSubjects ∧
    (handleTopicChange b checked st).selectedSubtopics = st.selectedSubtopics ∧
    (handleTopicChange b checked st).topicsContainer = st.topicsContainer ∧
    (handleTopicChange b checked st).subtopicsContainer =
      (if (dedupInsert checked).length > 0 then
        subtopicsResult b.subtopics
          (subjectTopicPairs st.selectedSubjects (dedupInsert checked))
        else .message "Select topics first to see available subtopics") := by
  refine ⟨?_, ?_, handleSubjectChange_topicsContainer b checked st, ?_, ?_, ?_, ?_,
    handleTopicChange_subtopicsContainer b checked st⟩
  · unfold handleSubjectChange
    dsimp only
    by_cases h : (dedupInsert checked).length > 0
    · rw [if_pos h]
      exact (loadTopics_frame b _).2.1
    · rw [if_neg h]
      rfl
  · unfold handleSubjectChange
    dsimp only
    by_cases h : (dedupInsert checked).length > 0
    · rw [if_pos h]
      exact (loadTopics_frame b _).2.2.1
    · rw [if_neg h]
      rfl
  · unfold handleSubjectChange
    dsimp only
    by_cases h : (dedupInsert checked).length > 0
    · rw [if_pos h, if_pos h]
      exact (loadTopics_frame b _).2.2.2
    · rw [if_neg h, if_neg h]
      rfl
  · unfold handleTopicChange
    dsimp only
    by_cases h : (dedupInsert checked).length > 0
    · rw [if_pos h]
      exact (loadSubtopics_frame b _).1
    · rw [if_neg h]
      rfl
  · unfold handleTopicChange
    dsimp only
    by_cases h : (dedupInsert checked).length > 0
    · rw [if_pos h]
      exact (loadSubtopics_frame b _).2.2.1
    · rw [if_neg h]
      rfl
  · unfold handleTopicChange
    dsimp only
    by_cases h : (dedupInsert checked).length > 0
    · rw [if_pos h]
      exact (loadSubtopics_frame b _).2.2.2
    · rw [if_neg h]
      rfl

/-- C10: for any textarea whose selection satisfies start ≤ end ≤ |value|,
`insertMarkdownFormat(before, after)` sets the value to
prefix ++ before ++ selected ++ after ++ suffix and collapses the cursor at
start + |before| + (end − start) + |after|. -/
theorem insertMarkdownFormat_splices_and_positions_cursor
    (before after : List Char) (ta : TextAreaState)
    (h1 : ta.selStart ≤ ta.selEnd) (h2 : ta.selEnd ≤ ta.value.length) :
    (insertMarkdownFormat before after ta).value =
      ta.value.take ta.selStart ++ before ++
        ((ta.value.drop ta.selStart).take (ta.selEnd - ta.selStart)) ++ after ++
        ta.value.drop ta.selEnd ∧
    (insertMarkdownFormat before after ta).selStart =
      ta.selStart + before.length + (ta.selEnd - ta.selStart) + after.length ∧
    (insertMarkdownFormat before after ta).selEnd =
      ta.selStart + before.length + (ta.selEnd - ta.selStart) + after.length := by
  have hs : ta.selStart ≤ ta.value.length := h1.trans h2
  have hsub1 : jsSubstring ta.value ta.selStart ta.selEnd =
      (ta.value.drop ta.selStart).take (ta.selEnd - ta.selStart) := by
    unfold jsSubstring
    dsimp only
    rw [min_eq_left hs, min_eq_left h2, max_eq_right h1, min_eq_left h1,
      List.drop_take]
  have hsub0 : jsSubstring ta.value 0 ta.selStart = ta.value.take ta.selStart := by
    unfold jsSubstring
    dsimp only
    rw [min_eq_left (Nat.zero_le _), min_eq_left hs, max_eq_right (Nat.zero_le _),
      min_eq_left (Nat.zero_le _), List.drop_zero]
  have hsub2 : jsSubstring ta.value ta.selEnd ta.value.length = ta.value.drop ta.selEnd := by
    unfold jsSubstring
    dsimp only
    rw [min_eq_left h2, min_self, max_eq_right h2, min_eq_left h2, List.take_length]
  unfold insertMarkdownFormat
  dsimp only
  rw [hsub0, hsub1, hsub2]
  refine ⟨by simp [List.append_assoc], ?_, ?_⟩ <;>
    · simp only [List.length_take, List.length_drop]
      omega

/-- C10 witness: wrapping the selected word `hello` in bold markers. -/
theorem insertMarkdownFormat_splices_witness :
    markdownTA.selStart ≤ markdownTA.selEnd ∧
    markdownTA.selEnd ≤ markdownTA.value.length ∧
    ((insertMarkdownFormat boldMarker boldMarker markdownTA).value =
        markdownTA.value.take markdownTA.selStart ++ boldMarker ++
          ((markdownTA.value.drop markdownTA.selStart).take
            (markdownTA.selEnd - markdownTA.selStart)) ++ boldMarker ++
          markdownTA.value.drop markdownTA.selEnd ∧
      (insertMarkdownFormat boldMarker boldMarker markdownTA).selStart =
        markdownTA.selStart + boldMarker.length +
          (markdownTA.selEnd - markdownTA.selStart) + boldMarker.length ∧
      (insertMarkdownFormat boldMarker boldMarker markdownTA).selEnd =
        markdownTA.selStart + boldMarker.length +
          (markdownTA.selEnd - markdownTA.selStart) + boldMarker.length) ∧
    (insertMarkdownFormat boldMarker boldMarker markdownTA).value = "**hello** world".data :=
  ⟨by decide, by decide,
    insertMarkdownFormat_splices_and_positions_cursor boldMarker boldMarker markdownTA
      (by decide) (by decide),
    by decide⟩

end QuestionBank
